import Mathlib

/-!
Verification development for `wlsctx.py`, a one-shot bootstrap program that
provisions a listening Unix-domain socket inside a fresh runtime directory,
registers it with the Wayland `wp_security_context_manager_v1` global and
commits the resulting security context.

The program is shallowly embedded as a pure function from an `Env`
(everything the outside world decides: the runtime directory returned by
`xdg_runtime_dir()`, the random suffix chosen by `TemporaryDirectory`, the
batch of global advertisements delivered by the initial
`dispatch()`/`roundtrip()` pair, the kernel's file-descriptor numbering and
the integer results of the two roundtrips) to a `RunResult`: the ordered
trace of externally visible events it performs plus its exit outcome.
Filesystem contents at exit are derived from the trace by a fold.

Source-line references below are to `src/wlsctx.py`.
-/

namespace Wlsctx

/-- `socket.AF_UNIX` on Linux. -/
def AF_UNIX : Nat := 1

/-- `socket.SOCK_STREAM` on Linux. -/
def SOCK_STREAM : Nat := 1

namespace WpSecurityContextManagerV1

/-- `WpSecurityContextManagerV1.name`: the interface name of the
security-context manager global in the `security-context-v1` protocol. -/
def name : String := "wp_security_context_manager_v1"

end WpSecurityContextManagerV1

/-- One `wl_registry.global` advertisement event: numeric name, interface
string and version, as delivered to the `global` handler. -/
structure GlobalAd where
  id_ : Nat
  interface : String
  version : Nat
  deriving DecidableEq, Repr

/-- The proxy returned by `registry.bind(id_, WpSecurityContextManagerV1,
version)` (line 20): it is determined by the numeric name it was bound from
and the version it was bound at. -/
structure ManagerProxy where
  id_ : Nat
  version : Nat
  deriving DecidableEq, Repr

/-- Lines 13-15: `@dataclass class SecurityContextExt`, whose single field
`manager` defaults to `None`. -/
structure SecurityContextExt where
  manager : Option ManagerProxy := none
  deriving DecidableEq, Repr

/-- Externally visible events of one run, in program order. -/
inductive Ev where
  /-- `TemporaryDirectory` creates the runtime directory (line 23). -/
  | mkdtemp (path : String)
  /-- `Display()` connects to the server (line 25). -/
  | displayConnect (fd : Nat)
  /-- A line written to standard output. -/
  | printOut (s : String)
  /-- `socket.socket(family, type, proto)` (line 31). -/
  | socketCreate (family typ proto fd : Nat)
  /-- `listen_sock.bind(path)` creates the socket file (line 32). -/
  | bindUnix (fd : Nat) (path : String)
  /-- `listen_sock.listen()`; `none` backlog means the OS default (line 33). -/
  | listen (fd : Nat) (backlog : Option Nat)
  /-- `os.pipe2(os.O_CLOEXEC)`; `cloexec` records whether `O_CLOEXEC` was
  requested, which marks both returned descriptors close-on-exec (line 34). -/
  | pipe2 (r w : Nat) (cloexec : Bool)
  /-- `ext.manager.create_listener(listen_fd, close_fd)` (line 36). -/
  | createListener (listenFd closeFd : Nat)
  /-- `security_context.set_sandbox_engine(s)` (line 37). -/
  | setSandboxEngine (s : String)
  /-- `security_context.set_app_id(s)` (line 38). -/
  | setAppId (s : String)
  /-- `security_context.set_instance_id(s)` (line 39). -/
  | setInstanceId (s : String)
  /-- `security_context.commit()` (line 40). -/
  | commit
  /-- `security_context.destroy()` (line 41). -/
  | destroy
  /-- `display.roundtrip()` with its integer result (lines 30 and 42). -/
  | roundtrip (result : Int)
  /-- An explicit `close` on a file descriptor. -/
  | closeFd (fd : Nat)
  /-- `Display.__exit__` disconnects from the server. -/
  | displayDisconnect
  /-- `TemporaryDirectory.__exit__` removes the directory tree. -/
  | rmtree (path : String)
  deriving DecidableEq, Repr

/-- How the process terminated. -/
inductive Outcome where
  /-- `main` returned normally. -/
  | normal
  /-- An uncaught exception aborted the program (non-zero exit). -/
  | error (msg : String)
  deriving DecidableEq, Repr

/-- The full observable behaviour of one invocation. -/
structure RunResult where
  trace : List Ev
  outcome : Outcome
  deriving DecidableEq, Repr

/-- Everything the environment decides for one run. -/
structure Env where
  /-- `xdg_runtime_dir()` (assumed without a trailing slash, as on Linux). -/
  runtime_dir : String
  /-- The random suffix `TemporaryDirectory` appends to the `isol-` marker. -/
  tmp_suffix : String
  /-- The `wl_registry.global` advertisements drained by the initial
  `dispatch()` / `roundtrip()` pair (lines 29-30). -/
  globals : List GlobalAd
  /-- First descriptor number the kernel hands out; the display connection,
  the listening socket and the two pipe ends are numbered consecutively. -/
  first_fd : Nat
  /-- Result of the first `display.roundtrip()` (line 30, ignored). -/
  first_roundtrip : Int
  /-- Result of the final `display.roundtrip()` (line 42, checked). -/
  final_roundtrip : Int
  deriving DecidableEq, Repr

/-- Descriptor of the display connection opened at line 25. -/
def display_fd (env : Env) : Nat := env.first_fd

/-- Descriptor of the listening socket created at line 31. -/
def listen_fd (env : Env) : Nat := env.first_fd + 1

/-- `sync_fds[0]`, the read end of the pipe created at line 34. -/
def read_fd (env : Env) : Nat := env.first_fd + 2

/-- Line 35: `close_fd = sync_fds[1]`, the write end of the pipe. -/
def close_fd (env : Env) : Nat := env.first_fd + 3

/-- `os.path.basename`: everything after the last `/` of the path
(posixpath semantics: split at the final separator, keep the tail). -/
def basename (p : String) : String :=
  String.mk (p.data.foldl (fun acc c => if c = '/' then [] else acc ++ [c]) [])

/-- Python's `str.removeprefix` (PEP 616): when `s` starts with `p`, drop
exactly `len(p)` characters, otherwise return `s` unchanged. -/
def removePrefixPy (s p : String) : String :=
  if p.data.isPrefixOf s.data then String.mk (s.data.drop p.data.length) else s

/-- Line 23: `TemporaryDirectory(dir=xdg_runtime_dir(), prefix='isol-')`
creates the fresh directory `<runtime_dir>/isol-<suffix>` (via
`os.path.join(dir, 'isol-' + suffix)`). -/
def rundir (env : Env) : String := env.runtime_dir ++ "/isol-" ++ env.tmp_suffix

/-- Line 24: `instance_id = os.path.basename(rundir).removeprefix("isol-")`. -/
def instance_id (env : Env) : String := removePrefixPy (basename (rundir env)) "isol-"

/-- Line 32: the socket is bound to the fixed name `wayland-1` inside the
runtime directory. -/
def sockPath (env : Env) : String := rundir env ++ "/wayland-1"

/-- Lines 17-20: the `global` event handler. On a matching interface name it
prints a diagnostic and rebinds `ext.manager` to the proxy returned by
`registry.bind(id_, WpSecurityContextManagerV1, version)`; otherwise it does
nothing. Returns the updated extension state and the emitted output. -/
def registry_global_handler (ext : SecurityContextExt) (id_ : Nat)
    (interface : String) (version : Nat) : SecurityContextExt × List Ev :=
  if interface = WpSecurityContextManagerV1.name then
    ({ ext with manager := some { id_ := id_, version := version } },
     [Ev.printOut ("got security context manager " ++ toString version)])
  else
    (ext, [])

/-- Lines 28-30: the handler is installed for the `global` event and the
`dispatch()` / `roundtrip()` pair delivers the advertisement batch to it one
event at a time, threading the mutable `ext` through. -/
def dispatchGlobals (ext : SecurityContextExt) :
    List GlobalAd → SecurityContextExt × List Ev
  | [] => (ext, [])
  | g :: gs =>
    let r := registry_global_handler ext g.id_ g.interface g.version
    let rest := dispatchGlobals r.1 gs
    (rest.1, r.2 ++ rest.2)

/-- The extension state after the initial dispatch/roundtrip pair, starting
from `SecurityContextExt()` (line 27). -/
def extAfterDispatch (env : Env) : SecurityContextExt :=
  (dispatchGlobals {} env.globals).1

/-- The diagnostic output emitted while dispatching the advertisement batch. -/
def dispatchEvs (env : Env) : List Ev :=
  (dispatchGlobals {} env.globals).2

/-- Lines 23-32: events up to and including the `bind` call: directory
creation, display connection, the dispatched advertisement batch, the first
roundtrip, socket creation and bind. -/
def preListen (env : Env) : List Ev :=
  Ev.mkdtemp (rundir env) ::
    Ev.displayConnect (display_fd env) ::
      (dispatchEvs env ++
        [Ev.roundtrip env.first_roundtrip,
         Ev.socketCreate AF_UNIX SOCK_STREAM 0 (listen_fd env),
         Ev.bindUnix (listen_fd env) (sockPath env)])

/-- Lines 23-35: everything `main` does before touching `ext.manager`:
`preListen`, then `listen()` and `os.pipe2(os.O_CLOEXEC)`. This part runs in
every execution, whether or not a manager global was advertised. -/
def preTrace (env : Env) : List Ev :=
  preListen env ++
    [Ev.listen (listen_fd env) none,
     Ev.pipe2 (read_fd env) (close_fd env) true]

/-- Lines 36-42: the security-context transaction, executed only when
`ext.manager` is a bound proxy: `create_listener(listen_sock.fileno(),
close_fd)`, the three attribute setters, `commit()`, `destroy()` and the
final `roundtrip()`. -/
def ctxTrace (env : Env) : List Ev :=
  [Ev.createListener (listen_fd env) (close_fd env),
   Ev.setSandboxEngine "io.r5t",
   Ev.setAppId "sandbox.devenv",
   Ev.setInstanceId (instance_id env),
   Ev.commit,
   Ev.destroy,
   Ev.roundtrip env.final_roundtrip]

/-- Exception unwinding through the three `with` blocks: `socket.__exit__`
closes the listening socket, `Display.__exit__` disconnects, and
`TemporaryDirectory.__exit__` removes the directory tree. -/
def unwindTrace (env : Env) : List Ev :=
  [Ev.closeFd (listen_fd env), Ev.displayDisconnect, Ev.rmtree (rundir env)]

/-- Normal exit of `main`: the socket and display `with` blocks close (lines
31 and 25), line 44 prints `rundir: <rundir>/`, and finally
`TemporaryDirectory.__exit__` removes the directory tree (line 23). -/
def successTail (env : Env) : List Ev :=
  [Ev.closeFd (listen_fd env), Ev.displayDisconnect,
   Ev.printOut ("rundir: " ++ rundir env ++ "/"),
   Ev.rmtree (rundir env)]

/-- Lines 22-44: `main`. After `preTrace` the program evaluates
`ext.manager.create_listener(...)` (line 36):
* if `ext.manager` is still `None`, attribute lookup raises an uncaught
  `AttributeError` and the `with` blocks unwind;
* otherwise the transaction `ctxTrace` runs; a negative final roundtrip
  raises `RuntimeError("Roundtrip failed")` (line 43) and unwinds, while a
  non-negative one reaches the `print` at line 44 and returns normally.
The model fixes the external operations no claim makes fail (connect, bind,
listen, pipe2) as succeeding, and delivers advertisements only in the
initial batch, as the claims assume. -/
def main (env : Env) : RunResult :=
  match (extAfterDispatch env).manager with
  | none =>
    { trace := preTrace env ++ unwindTrace env,
      outcome := Outcome.error "AttributeError" }
  | some _ =>
    if env.final_roundtrip < 0 then
      { trace := preTrace env ++ ctxTrace env ++ unwindTrace env,
        outcome := Outcome.error "Roundtrip failed" }
    else
      { trace := preTrace env ++ ctxTrace env ++ successTail env,
        outcome := Outcome.normal }

/-- Filesystem contents: the directories and regular/socket files that
currently exist (of those this program touches). -/
structure FsState where
  dirs : List String
  files : List String
  deriving DecidableEq, Repr

/-- Effect of one event on the filesystem: `mkdtemp` creates the directory,
`bind` creates the socket file, `rmtree` removes the directory and every
path inside it; nothing else touches the filesystem. -/
def fsStep (fs : FsState) : Ev → FsState
  | Ev.mkdtemp p => { fs with dirs := fs.dirs ++ [p] }
  | Ev.bindUnix _ p => { fs with files := fs.files ++ [p] }
  | Ev.rmtree p =>
    { dirs := fs.dirs.filter (fun d => d != p),
      files := fs.files.filter (fun f => !((p ++ "/").data.isPrefixOf f.data)) }
  | _ => fs

/-- The filesystem state immediately after a trace has run, starting empty. -/
def fsAfter (t : List Ev) : FsState :=
  t.foldl fsStep { dirs := [], files := [] }

/-! ### Basic lemmas about the dispatch phase -/

/-- Every event the advertisement dispatch emits is a diagnostic print. -/
lemma dispatchGlobals_print (ext : SecurityContextExt) (gs : List GlobalAd) :
    ∀ e ∈ (dispatchGlobals ext gs).2, ∃ s, e = Ev.printOut s := by
  induction gs generalizing ext with
  | nil => intro e he; simp [dispatchGlobals] at he
  | cons g gs ih =>
    intro e he
    simp only [dispatchGlobals, List.mem_append] at he
    rcases he with h1 | h2
    · unfold registry_global_handler at h1
      split at h1 <;> simp at h1
      exact ⟨_, h1⟩
    · exact ih _ e h2

/-- Any event of the dispatch output phase that is not a print is absent. -/
lemma not_mem_dispatchEvs (env : Env) (e : Ev)
    (h : ∀ s, e ≠ Ev.printOut s) : e ∉ dispatchEvs env := by
  intro hmem
  obtain ⟨s, hs⟩ := dispatchGlobals_print _ _ e hmem
  exact h s hs

/-- If no advertised interface matches the manager's name, the extension
state passes through the dispatch unchanged. -/
lemma dispatchGlobals_of_no_match (ext : SecurityContextExt)
    (gs : List GlobalAd)
    (h : ∀ g ∈ gs, g.interface ≠ WpSecurityContextManagerV1.name) :
    (dispatchGlobals ext gs).1 = ext := by
  induction gs generalizing ext with
  | nil => rfl
  | cons g gs ih =>
    have hg : g.interface ≠ WpSecurityContextManagerV1.name := h g (by simp)
    simp only [dispatchGlobals, registry_global_handler, if_neg hg]
    exact ih ext fun g' hg' => h g' (List.mem_cons_of_mem _ hg')

/-- With no matching advertisement the manager handle stays empty. -/
lemma extAfterDispatch_none (env : Env)
    (h : ∀ g ∈ env.globals, g.interface ≠ WpSecurityContextManagerV1.name) :
    (extAfterDispatch env).manager = none := by
  unfold extAfterDispatch
  rw [dispatchGlobals_of_no_match _ _ h]

/-! ### Branch equations for `main` -/

/-- `main` on a run where the manager global was never advertised. -/
lemma main_none (env : Env) (h : (extAfterDispatch env).manager = none) :
    main env = { trace := preTrace env ++ unwindTrace env,
                 outcome := Outcome.error "AttributeError" } := by
  unfold main
  rw [h]

/-- `main` on a run with a bound manager and a failing final roundtrip. -/
lemma main_some_neg (env : Env) (m : ManagerProxy)
    (h : (extAfterDispatch env).manager = some m)
    (hneg : env.final_roundtrip < 0) :
    main env = { trace := preTrace env ++ ctxTrace env ++ unwindTrace env,
                 outcome := Outcome.error "Roundtrip failed" } := by
  unfold main
  rw [h]
  simp [hneg]

/-- `main` on a run with a bound manager and a successful final roundtrip. -/
lemma main_some_ok (env : Env) (m : ManagerProxy)
    (h : (extAfterDispatch env).manager = some m)
    (hok : ¬ env.final_roundtrip < 0) :
    main env = { trace := preTrace env ++ ctxTrace env ++ successTail env,
                 outcome := Outcome.normal } := by
  unfold main
  rw [h]
  simp [hok]

/-- Every trace of `main` starts with `preTrace`. -/
lemma main_trace_split (env : Env) :
    ∃ rest, (main env).trace = preTrace env ++ rest := by
  rcases hm : (extAfterDispatch env).manager with _ | m
  · exact ⟨_, by rw [main_none env hm]⟩
  · by_cases hneg : env.final_roundtrip < 0
    · exact ⟨ctxTrace env ++ unwindTrace env, by rw [main_some_neg env m hm hneg, List.append_assoc]⟩
    · exact ⟨ctxTrace env ++ successTail env, by rw [main_some_ok env m hm hneg, List.append_assoc]⟩

/-! ### Filesystem lemmas -/

/-- A list is always a left factor of itself under `isPrefixOf`. -/
lemma isPrefixOf_append_self (a b : List Char) : a.isPrefixOf (a ++ b) = true := by
  induction a with
  | nil => cases b <;> rfl
  | cons x xs ih => simp [List.isPrefixOf, ih]

/-- Diagnostic prints do not touch the filesystem. -/
lemma foldl_fsStep_print (evs : List Ev) (fs : FsState)
    (h : ∀ e ∈ evs, ∃ s, e = Ev.printOut s) :
    evs.foldl fsStep fs = fs := by
  induction evs generalizing fs with
  | nil => rfl
  | cons e evs ih =>
    obtain ⟨s, rfl⟩ := h e (by simp)
    rw [List.foldl_cons]
    exact ih fs fun e' he' => h e' (List.mem_cons_of_mem _ he')

/-- After the pre-manager phase the filesystem holds exactly the runtime
directory and the bound socket file. -/
lemma fsAfter_preTrace (env : Env) :
    (preTrace env).foldl fsStep { dirs := [], files := [] } =
      { dirs := [rundir env], files := [sockPath env] } := by
  have hd : (dispatchEvs env).foldl fsStep
      { dirs := [rundir env], files := [] } = { dirs := [rundir env], files := [] } :=
    foldl_fsStep_print _ _ (fun e he => dispatchGlobals_print _ _ e he)
  simp [preTrace, preListen, List.foldl_append, fsStep, hd]

/-- The security-context transaction does not touch the filesystem. -/
lemma fsAfter_ctxTrace (env : Env) (fs : FsState) :
    (ctxTrace env).foldl fsStep fs = fs := by
  simp [ctxTrace, fsStep]

/-- The socket file lies strictly inside the runtime directory. -/
lemma sockPath_under_rundir (env : Env) :
    (rundir env).data ++ ['/'] <+: (sockPath env).data := by
  have hdata : (sockPath env).data = ((rundir env).data ++ ['/']) ++ "wayland-1".data := by
    show (rundir env ++ "/wayland-1").data = _
    rw [String.data_append, List.append_assoc]
    congr 1
  rw [hdata]
  exact List.prefix_append _ _


/-- Exception unwinding removes both the runtime directory and the socket
file inside it. -/
lemma fsAfter_unwind (env : Env) :
    (unwindTrace env).foldl fsStep
      { dirs := [rundir env], files := [sockPath env] } =
      { dirs := [], files := [] } := by
  simp [unwindTrace, fsStep, sockPath_under_rundir env]

/-- The normal-exit tail also removes the runtime directory and the socket
file inside it. -/
lemma fsAfter_success (env : Env) :
    (successTail env).foldl fsStep
      { dirs := [rundir env], files := [sockPath env] } =
      { dirs := [], files := [] } := by
  simp [successTail, fsStep, sockPath_under_rundir env]

/-- On every exit path — missing manager, failed final roundtrip, or normal
exit — `TemporaryDirectory` has removed everything the run created: the
filesystem is empty again immediately after program exit. -/
lemma fsAfter_main (env : Env) :
    fsAfter (main env).trace = { dirs := [], files := [] } := by
  rcases hm : (extAfterDispatch env).manager with _ | m
  · rw [main_none env hm]
    unfold fsAfter
    rw [List.foldl_append, fsAfter_preTrace, fsAfter_unwind]
  · by_cases hneg : env.final_roundtrip < 0
    · rw [main_some_neg env m hm hneg]
      unfold fsAfter
      rw [List.foldl_append, List.foldl_append, fsAfter_preTrace,
        fsAfter_ctxTrace, fsAfter_unwind]
    · rw [main_some_ok env m hm hneg]
      unfold fsAfter
      rw [List.foldl_append, List.foldl_append, fsAfter_preTrace,
        fsAfter_ctxTrace, fsAfter_success]

/-! ### Trace membership -/

/-- Every event of a run belongs to one of the four phases. -/
lemma mem_main_trace (env : Env) (e : Ev) (h : e ∈ (main env).trace) :
    e ∈ preTrace env ∨ e ∈ ctxTrace env ∨ e ∈ unwindTrace env ∨
      e ∈ successTail env := by
  rcases hm : (extAfterDispatch env).manager with _ | m
  · rw [main_none env hm] at h
    rcases List.mem_append.1 h with h | h
    · exact Or.inl h
    · exact Or.inr (Or.inr (Or.inl h))
  · by_cases hneg : env.final_roundtrip < 0
    · rw [main_some_neg env m hm hneg] at h
      rcases List.mem_append.1 h with h | h
      · rcases List.mem_append.1 h with h | h
        · exact Or.inl h
        · exact Or.inr (Or.inl h)
      · exact Or.inr (Or.inr (Or.inl h))
    · rw [main_some_ok env m hm hneg] at h
      rcases List.mem_append.1 h with h | h
      · rcases List.mem_append.1 h with h | h
        · exact Or.inl h
        · exact Or.inr (Or.inl h)
      · exact Or.inr (Or.inr (Or.inr h))

/-- Case analysis of membership in the pre-manager phase. -/
lemma mem_preTrace_cases (env : Env) (e : Ev) (h : e ∈ preTrace env) :
    e = Ev.mkdtemp (rundir env) ∨ e = Ev.displayConnect (display_fd env) ∨
    e ∈ dispatchEvs env ∨ e = Ev.roundtrip env.first_roundtrip ∨
    e = Ev.socketCreate AF_UNIX SOCK_STREAM 0 (listen_fd env) ∨
    e = Ev.bindUnix (listen_fd env) (sockPath env) ∨
    e = Ev.listen (listen_fd env) none ∨
    e = Ev.pipe2 (read_fd env) (close_fd env) true := by
  simp only [preTrace, preListen, List.mem_append, List.mem_cons,
    List.mem_singleton, List.not_mem_nil, or_false] at h
  tauto

/-- A non-print event of a run is one of the explicitly listed operations. -/
lemma mem_main_trace_cases (env : Env) (e : Ev) (h : e ∈ (main env).trace)
    (hne : ∀ s, e ≠ Ev.printOut s) :
    e = Ev.mkdtemp (rundir env) ∨ e = Ev.displayConnect (display_fd env) ∨
    e = Ev.roundtrip env.first_roundtrip ∨
    e = Ev.socketCreate AF_UNIX SOCK_STREAM 0 (listen_fd env) ∨
    e = Ev.bindUnix (listen_fd env) (sockPath env) ∨
    e = Ev.listen (listen_fd env) none ∨
    e = Ev.pipe2 (read_fd env) (close_fd env) true ∨
    e ∈ ctxTrace env ∨
    e = Ev.closeFd (listen_fd env) ∨ e = Ev.displayDisconnect ∨
    e = Ev.rmtree (rundir env) := by
  rcases mem_main_trace env e h with hp | hc | hu | hs
  · rcases mem_preTrace_cases env e hp with h | h | h | h | h | h | h | h
    · tauto
    · tauto
    · exact absurd h (not_mem_dispatchEvs env e hne)
    · tauto
    · tauto
    · tauto
    · tauto
    · tauto
  · tauto
  · simp only [unwindTrace, List.mem_cons, List.not_mem_nil, or_false] at hu
    tauto
  · simp only [successTail, List.mem_cons, List.not_mem_nil, or_false] at hs
    rcases hs with h | h | h | h
    · tauto
    · tauto
    · exact absurd h (hne _)
    · tauto

/-- Any directory this program ever creates is the runtime directory. -/
lemma mkdtemp_arg (env : Env) (d : String)
    (h : Ev.mkdtemp d ∈ (main env).trace) : d = rundir env := by
  have hc := mem_main_trace_cases env _ h (by simp)
  simpa [ctxTrace] using hc

/-- Any argument ever passed to `set_instance_id` is `instance_id`. -/
lemma setInstanceId_arg (env : Env) (s : String)
    (h : Ev.setInstanceId s ∈ (main env).trace) : s = instance_id env := by
  have hc := mem_main_trace_cases env _ h (by simp)
  simpa [ctxTrace] using hc

/-- Any argument ever passed to `set_sandbox_engine` is `io.r5t`. -/
lemma setSandboxEngine_arg (env : Env) (s : String)
    (h : Ev.setSandboxEngine s ∈ (main env).trace) : s = "io.r5t" := by
  have hc := mem_main_trace_cases env _ h (by simp)
  simpa [ctxTrace] using hc

/-- Any argument ever passed to `set_app_id` is `sandbox.devenv`. -/
lemma setAppId_arg (env : Env) (s : String)
    (h : Ev.setAppId s ∈ (main env).trace) : s = "sandbox.devenv" := by
  have hc := mem_main_trace_cases env _ h (by simp)
  simpa [ctxTrace] using hc

/-- The only descriptor the program ever explicitly closes is the listening
socket (via `socket.__exit__`). -/
lemma closeFd_arg (env : Env) (fd : Nat)
    (h : Ev.closeFd fd ∈ (main env).trace) : fd = listen_fd env := by
  have hc := mem_main_trace_cases env _ h (by simp)
  simpa [ctxTrace] using hc

/-- Events of the pre-manager phase occur in every run. -/
lemma preTrace_sub (env : Env) (e : Ev) (he : e ∈ preTrace env) :
    e ∈ (main env).trace := by
  obtain ⟨rest, hr⟩ := main_trace_split env
  rw [hr]
  exact List.mem_append_left _ he

/-- Events of the transaction phase occur in every run with a bound manager. -/
lemma ctxTrace_sub (env : Env) (m : ManagerProxy)
    (h : (extAfterDispatch env).manager = some m) (e : Ev)
    (he : e ∈ ctxTrace env) : e ∈ (main env).trace := by
  by_cases hneg : env.final_roundtrip < 0
  · rw [main_some_neg env m h hneg]
    exact List.mem_append_left _ (List.mem_append_right _ he)
  · rw [main_some_ok env m h hneg]
    exact List.mem_append_left _ (List.mem_append_right _ he)

/-- No context is created during the phase up to and including `bind`. -/
lemma createListener_not_mem_preListen (env : Env) (a b : Nat) :
    Ev.createListener a b ∉ preListen env := by
  intro h
  simp [preListen] at h
  exact not_mem_dispatchEvs env _ (by simp) h

/-- No context is created during the whole pre-manager phase. -/
lemma createListener_not_mem_preTrace (env : Env) (a b : Nat) :
    Ev.createListener a b ∉ preTrace env := by
  intro h
  simp [preTrace] at h
  exact createListener_not_mem_preListen env a b h

/-- No descriptor is closed during the pre-manager phase. -/
lemma closeFd_not_mem_preTrace (env : Env) (fd : Nat) :
    Ev.closeFd fd ∉ preTrace env := by
  intro h
  simp [preTrace, preListen] at h
  exact not_mem_dispatchEvs env _ (by simp) h

/-- No commit happens during the pre-manager phase. -/
lemma commit_not_mem_preTrace (env : Env) : Ev.commit ∉ preTrace env := by
  intro h
  simp [preTrace, preListen] at h
  exact not_mem_dispatchEvs env _ (by simp) h

/-- No destroy happens during the pre-manager phase. -/
lemma destroy_not_mem_preTrace (env : Env) : Ev.destroy ∉ preTrace env := by
  intro h
  simp [preTrace, preListen] at h
  exact not_mem_dispatchEvs env _ (by simp) h

/-- The transaction trace splits at the unique `commit`: everything before
it includes the three attribute setters, everything after it includes the
`destroy`, and `commit` occurs nowhere else. -/
lemma commit_decomp (env : Env) (tail : List Ev) (hc : Ev.commit ∉ tail) :
    ∃ l1 l2, preTrace env ++ ctxTrace env ++ tail = l1 ++ Ev.commit :: l2 ∧
      Ev.commit ∉ l1 ∧ Ev.commit ∉ l2 ∧
      Ev.setSandboxEngine "io.r5t" ∈ l1 ∧
      Ev.setAppId "sandbox.devenv" ∈ l1 ∧
      Ev.setInstanceId (instance_id env) ∈ l1 ∧
      Ev.destroy ∈ l2 ∧ Ev.destroy ∉ l1 := by
  refine ⟨preTrace env ++
      [Ev.createListener (listen_fd env) (close_fd env),
       Ev.setSandboxEngine "io.r5t",
       Ev.setAppId "sandbox.devenv",
       Ev.setInstanceId (instance_id env)],
    Ev.destroy :: Ev.roundtrip env.final_roundtrip :: tail,
    ?_, ?_, ?_, ?_, ?_, ?_, ?_, ?_⟩
  · simp [ctxTrace, List.append_assoc]
  · intro h
    rcases List.mem_append.1 h with h | h
    · exact commit_not_mem_preTrace env h
    · simp at h
  · intro h
    simp [hc] at h
  · simp
  · simp
  · simp
  · simp
  · intro h
    rcases List.mem_append.1 h with h | h
    · exact destroy_not_mem_preTrace env h
    · simp at h

/-! ### A sanity check of the path arithmetic -/

/-- When the random suffix chosen by `TemporaryDirectory` contains no slash
(as `tempfile`'s name generator guarantees), line 24 recovers exactly that
suffix: the instance identifier is the directory basename with the `isol-`
marker stripped, byte for byte. -/
lemma instance_id_eq_suffix (env : Env) (h : '/' ∉ env.tmp_suffix.data) :
    instance_id env = env.tmp_suffix := by
  have step_no_slash : ∀ (b acc : List Char), '/' ∉ b →
      b.foldl (fun acc c => if c = '/' then [] else acc ++ [c]) acc = acc ++ b := by
    intro b
    induction b with
    | nil => intro acc _; simp
    | cons c cs ih =>
      intro acc hb
      have hc : ¬ c = '/' := fun hcc => hb (hcc ▸ List.mem_cons_self c cs)
      rw [List.foldl_cons, if_neg hc, ih _ (fun hm => hb (List.mem_cons_of_mem _ hm))]
      simp
  have hdata : (rundir env).data =
      env.runtime_dir.data ++ '/' :: ("isol-".data ++ env.tmp_suffix.data) := by
    show (env.runtime_dir ++ "/isol-" ++ env.tmp_suffix).data = _
    rw [String.data_append, String.data_append, List.append_assoc]
    congr 1
  have hbase : basename (rundir env) = String.mk ("isol-".data ++ env.tmp_suffix.data) := by
    unfold basename
    rw [hdata, List.foldl_append, List.foldl_cons, if_pos rfl]
    rw [List.foldl_append]
    rw [step_no_slash "isol-".data [] (by decide)]
    rw [step_no_slash env.tmp_suffix.data _ h]
    simp
  unfold instance_id removePrefixPy
  rw [hbase]
  rw [if_pos (by simp)]
  simp

/-! ### Concrete runs used as witnesses -/

/-- A successful run: the manager global is advertised, both roundtrips
return a non-negative result. -/
def envC1 : Env :=
  { runtime_dir := "/r", tmp_suffix := "a1",
    globals := [{ id_ := 7, interface := "wp_security_context_manager_v1", version := 1 }],
    first_fd := 3, first_roundtrip := 0, final_roundtrip := 0 }

/-- A run in which only an unrelated global is advertised. -/
def envC2 : Env :=
  { runtime_dir := "/r", tmp_suffix := "b2",
    globals := [{ id_ := 2, interface := "wl_compositor", version := 6 }],
    first_fd := 3, first_roundtrip := 0, final_roundtrip := 0 }

/-- A run with a bound manager whose final roundtrip fails. -/
def envC3 : Env :=
  { runtime_dir := "/r", tmp_suffix := "c3",
    globals := [{ id_ := 7, interface := "wp_security_context_manager_v1", version := 1 }],
    first_fd := 3, first_roundtrip := 0, final_roundtrip := -1 }

/-- A successful run used by the C4 witness. -/
def envC4 : Env :=
  { runtime_dir := "/r", tmp_suffix := "d4",
    globals := [{ id_ := 7, interface := "wp_security_context_manager_v1", version := 1 }],
    first_fd := 3, first_roundtrip := 0, final_roundtrip := 0 }

/-- A successful run used by the C5 witness. -/
def envC5 : Env :=
  { runtime_dir := "/r", tmp_suffix := "e5",
    globals := [{ id_ := 7, interface := "wp_security_context_manager_v1", version := 1 }],
    first_fd := 3, first_roundtrip := 0, final_roundtrip := 0 }

/-- A successful run used by the C7 witness. -/
def envC7 : Env :=
  { runtime_dir := "/r", tmp_suffix := "g7",
    globals := [{ id_ := 7, interface := "wp_security_context_manager_v1", version := 1 }],
    first_fd := 3, first_roundtrip := 0, final_roundtrip := 0 }

/-- A successful run used by the C8 witness. -/
def envC8 : Env :=
  { runtime_dir := "/r", tmp_suffix := "h8",
    globals := [{ id_ := 7, interface := "wp_security_context_manager_v1", version := 1 }],
    first_fd := 3, first_roundtrip := 0, final_roundtrip := 0 }

/-- A successful run used by the C9 witness. -/
def envC9 : Env :=
  { runtime_dir := "/r", tmp_suffix := "i9",
    globals := [{ id_ := 7, interface := "wp_security_context_manager_v1", version := 1 }],
    first_fd := 3, first_roundtrip := 0, final_roundtrip := 0 }

/-- A successful run used by the C10 witness. -/
def envC10 : Env :=
  { runtime_dir := "/r", tmp_suffix := "j10",
    globals := [{ id_ := 7, interface := "wp_security_context_manager_v1", version := 1 }],
    first_fd := 3, first_roundtrip := 0, final_roundtrip := 0 }

/-! ### The claims -/

/-- Claim C1 (refuted by the code — code bug): the claim says the printed
runtime-directory path still exists, holding exactly one socket file,
immediately after a successful exit. In the code the `print` at line 44 sits
*inside* the `TemporaryDirectory` block of line 23, whose `__exit__` removes
the directory tree on every path, success included: on the concrete
successful run `envC1` the program exits normally and prints the path, yet
immediately after exit that directory no longer exists and no file survives. -/
theorem claim_C1 :
    (main envC1).outcome = Outcome.normal ∧
    Ev.printOut ("rundir: " ++ rundir envC1 ++ "/") ∈ (main envC1).trace ∧
    rundir envC1 ∉ (fsAfter (main envC1).trace).dirs ∧
    (fsAfter (main envC1).trace).files = [] := by decide

/-- Claim C2, counterexample: in the concrete run `envC2` no
security-context-manager global is ever advertised — the handle is still
empty after the dispatch/roundtrip pair — and yet the trace contains the
`bind` and `listen` calls: the listening socket *was* created, so no
non-empty-handle check precedes provisioning, contradicting the claim. -/
theorem claim_C2_counterexample :
    (extAfterDispatch envC2).manager = none ∧
    Ev.bindUnix (listen_fd envC2) (sockPath envC2) ∈ (main envC2).trace ∧
    Ev.listen (listen_fd envC2) none ∈ (main envC2).trace := by decide

/-- Claim C2 (amended): when no security-context-manager global is
advertised, `main` aborts with a fatal error — the empty handle is
dereferenced at the context-creation call, so no security context is ever
created — and no temporary directory or file is left behind; however the
listening socket (and the pipe) are provisioned *before* the failure, since
the code has no explicit non-empty-handle check preceding provisioning. -/
theorem claim_C2 (env : Env)
    (h : ∀ g ∈ env.globals, g.interface ≠ WpSecurityContextManagerV1.name) :
    (main env).outcome = Outcome.error "AttributeError" ∧
    rundir env ∉ (fsAfter (main env).trace).dirs ∧
    (fsAfter (main env).trace).files = [] ∧
    Ev.listen (listen_fd env) none ∈ (main env).trace ∧
    (∀ a b, Ev.createListener a b ∉ (main env).trace) := by
  have hm := extAfterDispatch_none env h
  refine ⟨?_, ?_, ?_, ?_, ?_⟩
  · rw [main_none env hm]
  · rw [fsAfter_main]
    simp
  · rw [fsAfter_main]
  · exact preTrace_sub env _ (by simp [preTrace])
  · intro a b hc
    rw [main_none env hm] at hc
    rcases List.mem_append.1 hc with hc | hc
    · exact createListener_not_mem_preTrace env a b hc
    · simp [unwindTrace] at hc

/-- Witness for the amended claim C2 at the concrete run `envC2`. -/
theorem claim_C2_witness :
    (∀ g ∈ envC2.globals, g.interface ≠ WpSecurityContextManagerV1.name) ∧
    ((main envC2).outcome = Outcome.error "AttributeError" ∧
     rundir envC2 ∉ (fsAfter (main envC2).trace).dirs ∧
     (fsAfter (main envC2).trace).files = [] ∧
     Ev.listen (listen_fd envC2) none ∈ (main envC2).trace ∧
     (∀ a b, Ev.createListener a b ∉ (main envC2).trace)) :=
  ⟨by decide, claim_C2 envC2 (by decide)⟩

/-- Claim C3 (confirmed): on every run that reaches the final roundtrip
(i.e. the manager handle was bound) whose result is negative, `main` aborts
with the fatal `Roundtrip failed` error and the temporary runtime directory
(with everything in it) has been removed by the time the program exits. -/
theorem claim_C3 (env : Env) (m : ManagerProxy)
    (h : (extAfterDispatch env).manager = some m)
    (hneg : env.final_roundtrip < 0) :
    (main env).outcome = Outcome.error "Roundtrip failed" ∧
    rundir env ∉ (fsAfter (main env).trace).dirs ∧
    (fsAfter (main env).trace).files = [] := by
  refine ⟨?_, ?_, ?_⟩
  · rw [main_some_neg env m h hneg]
  · rw [fsAfter_main]
    simp
  · rw [fsAfter_main]

/-- Witness for claim C3 at the concrete run `envC3`. -/
theorem claim_C3_witness :
    ((extAfterDispatch envC3).manager = some { id_ := 7, version := 1 } ∧
     envC3.final_roundtrip < 0) ∧
    ((main envC3).outcome = Outcome.error "Roundtrip failed" ∧
     rundir envC3 ∉ (fsAfter (main envC3).trace).dirs ∧
     (fsAfter (main envC3).trace).files = []) :=
  ⟨⟨by decide, by decide⟩,
   claim_C3 envC3 { id_ := 7, version := 1 } (by decide) (by decide)⟩

/-- Claim C4 (confirmed): on every run that creates a security context (the
manager handle was bound), the trace splits at a unique `commit` that is
preceded by all three attribute setters (sandbox engine, app id, instance
id) and followed by the `destroy` of the local handle. -/
theorem claim_C4 (env : Env) (m : ManagerProxy)
    (h : (extAfterDispatch env).manager = some m) :
    ∃ l1 l2, (main env).trace = l1 ++ Ev.commit :: l2 ∧
      Ev.commit ∉ l1 ∧ Ev.commit ∉ l2 ∧
      Ev.setSandboxEngine "io.r5t" ∈ l1 ∧
      Ev.setAppId "sandbox.devenv" ∈ l1 ∧
      Ev.setInstanceId (instance_id env) ∈ l1 ∧
      Ev.destroy ∈ l2 ∧ Ev.destroy ∉ l1 := by
  by_cases hneg : env.final_roundtrip < 0
  · rw [main_some_neg env m h hneg]
    exact commit_decomp env _ (by simp [unwindTrace])
  · rw [main_some_ok env m h hneg]
    exact commit_decomp env _ (by simp [successTail])

/-- Witness for claim C4 at the concrete run `envC4`. -/
theorem claim_C4_witness :
    (extAfterDispatch envC4).manager = some { id_ := 7, version := 1 } ∧
    (∃ l1 l2, (main envC4).trace = l1 ++ Ev.commit :: l2 ∧
      Ev.commit ∉ l1 ∧ Ev.commit ∉ l2 ∧
      Ev.setSandboxEngine "io.r5t" ∈ l1 ∧
      Ev.setAppId "sandbox.devenv" ∈ l1 ∧
      Ev.setInstanceId (instance_id envC4) ∈ l1 ∧
      Ev.destroy ∈ l2 ∧ Ev.destroy ∉ l1) :=
  ⟨by decide, claim_C4 envC4 { id_ := 7, version := 1 } (by decide)⟩

/-- Claim C5 (confirmed): whatever instance identifier is ever passed to
`set_instance_id` equals, byte for byte, the basename of whatever runtime
directory was created, with the fixed `isol-` marker stripped (line 24). -/
theorem claim_C5 (env : Env) (s d : String)
    (hs : Ev.setInstanceId s ∈ (main env).trace)
    (hd : Ev.mkdtemp d ∈ (main env).trace) :
    s = removePrefixPy (basename d) "isol-" := by
  rw [setInstanceId_arg env s hs, mkdtemp_arg env d hd]
  rfl

/-- Witness for claim C5 at the concrete run `envC5`. -/
theorem claim_C5_witness :
    (Ev.setInstanceId (instance_id envC5) ∈ (main envC5).trace ∧
     Ev.mkdtemp (rundir envC5) ∈ (main envC5).trace) ∧
    instance_id envC5 = removePrefixPy (basename (rundir envC5)) "isol-" :=
  ⟨⟨by decide, by decide⟩,
   claim_C5 envC5 (instance_id envC5) (rundir envC5) (by decide) (by decide)⟩

/-- Claim C6 (confirmed): for every advertisement event the handler receives,
a matching interface name binds the global at the advertised version and
stores the handle in the `manager` field, while any other interface name
leaves the extension state entirely unchanged (lines 17-20). -/
theorem claim_C6 (ext : SecurityContextExt) (id_ : Nat) (interface : String)
    (version : Nat) :
    (interface = WpSecurityContextManagerV1.name →
      (registry_global_handler ext id_ interface version).1.manager =
        some { id_ := id_, version := version }) ∧
    (interface ≠ WpSecurityContextManagerV1.name →
      (registry_global_handler ext id_ interface version).1 = ext) := by
  constructor
  · intro h
    simp [registry_global_handler, h]
  · intro h
    simp [registry_global_handler, h]

/-- Witness for claim C6: the handler binds on the matching name and ignores
an unrelated global. -/
theorem claim_C6_witness :
    (registry_global_handler {} 7 "wp_security_context_manager_v1" 3).1.manager =
      some { id_ := 7, version := 3 } ∧
    (registry_global_handler {} 8 "wl_compositor" 6).1 = {} :=
  ⟨(claim_C6 {} 7 "wp_security_context_manager_v1" 3).1 rfl,
   (claim_C6 {} 8 "wl_compositor" 6).2 (by decide)⟩

/-- Claim C7 (confirmed): every run creates the runtime directory and a
Unix-domain stream socket (`AF_UNIX`, `SOCK_STREAM`), binds it to the fixed
name `wayland-1` inside that directory, and puts it into the listening state
with the OS-default backlog — all before any context-creation call. -/
theorem claim_C7 (env : Env) :
    Ev.mkdtemp (rundir env) ∈ (main env).trace ∧
    Ev.socketCreate AF_UNIX SOCK_STREAM 0 (listen_fd env) ∈ (main env).trace ∧
    Ev.bindUnix (listen_fd env) (rundir env ++ "/wayland-1") ∈ (main env).trace ∧
    ∃ l1 l2, (main env).trace = l1 ++ Ev.listen (listen_fd env) none :: l2 ∧
      ∀ a b, Ev.createListener a b ∉ l1 := by
  obtain ⟨rest, hr⟩ := main_trace_split env
  refine ⟨preTrace_sub env _ (by simp [preTrace, preListen]),
    preTrace_sub env _ (by simp [preTrace, preListen]),
    preTrace_sub env _ (by simp [preTrace, preListen, sockPath]),
    preListen env, Ev.pipe2 (read_fd env) (close_fd env) true :: rest, ?_, ?_⟩
  · rw [hr]
    simp [preTrace, List.append_assoc]
  · intro a b
    exact createListener_not_mem_preListen env a b

/-- Witness for claim C7 at the concrete run `envC7`. -/
theorem claim_C7_witness :
    Ev.mkdtemp (rundir envC7) ∈ (main envC7).trace ∧
    Ev.socketCreate AF_UNIX SOCK_STREAM 0 (listen_fd envC7) ∈ (main envC7).trace ∧
    Ev.bindUnix (listen_fd envC7) (rundir envC7 ++ "/wayland-1") ∈ (main envC7).trace ∧
    ∃ l1 l2, (main envC7).trace = l1 ++ Ev.listen (listen_fd envC7) none :: l2 ∧
      ∀ a b, Ev.createListener a b ∉ l1 :=
  claim_C7 envC7

/-- Claim C8 (confirmed): on every run that reaches context creation, the
pipe was created by `pipe2` with `O_CLOEXEC` (both descriptors
close-on-exec), the descriptor handed to `create_listener` is the write end
— distinct from the read end — and no descriptor whatsoever has been closed
before the `create_listener` call, so the write end is still open there. -/
theorem claim_C8 (env : Env) (m : ManagerProxy)
    (h : (extAfterDispatch env).manager = some m) :
    ∃ l1 l2, (main env).trace =
        l1 ++ Ev.createListener (listen_fd env) (close_fd env) :: l2 ∧
      Ev.pipe2 (read_fd env) (close_fd env) true ∈ l1 ∧
      (∀ fd, Ev.closeFd fd ∉ l1) ∧
      read_fd env ≠ close_fd env := by
  have hsplit : ∀ tail : List Ev,
      preTrace env ++ ctxTrace env ++ tail =
        preTrace env ++ Ev.createListener (listen_fd env) (close_fd env) ::
          ([Ev.setSandboxEngine "io.r5t", Ev.setAppId "sandbox.devenv",
            Ev.setInstanceId (instance_id env), Ev.commit, Ev.destroy,
            Ev.roundtrip env.final_roundtrip] ++ tail) := by
    intro tail
    simp [ctxTrace, List.append_assoc]
  have hside : Ev.pipe2 (read_fd env) (close_fd env) true ∈ preTrace env ∧
      (∀ fd, Ev.closeFd fd ∉ preTrace env) ∧ read_fd env ≠ close_fd env := by
    refine ⟨by simp [preTrace], fun fd => closeFd_not_mem_preTrace env fd, ?_⟩
    simp only [read_fd, close_fd]
    omega
  by_cases hneg : env.final_roundtrip < 0
  · rw [main_some_neg env m h hneg]
    exact ⟨preTrace env, _, hsplit _, hside.1, hside.2.1, hside.2.2⟩
  · rw [main_some_ok env m h hneg]
    exact ⟨preTrace env, _, hsplit _, hside.1, hside.2.1, hside.2.2⟩

/-- Witness for claim C8 at the concrete run `envC8`. -/
theorem claim_C8_witness :
    (extAfterDispatch envC8).manager = some { id_ := 7, version := 1 } ∧
    (∃ l1 l2, (main envC8).trace =
        l1 ++ Ev.createListener (listen_fd envC8) (close_fd envC8) :: l2 ∧
      Ev.pipe2 (read_fd envC8) (close_fd envC8) true ∈ l1 ∧
      (∀ fd, Ev.closeFd fd ∉ l1) ∧
      read_fd envC8 ≠ close_fd envC8) :=
  ⟨by decide, claim_C8 envC8 { id_ := 7, version := 1 } (by decide)⟩

/-- Claim C9 (confirmed): on every run that creates a security context, the
sandbox-engine and app-id attributes are set to the fixed constants
`io.r5t` and `sandbox.devenv`, and no other value is ever passed to either
setter in any run, whatever the environment. -/
theorem claim_C9 (env : Env) (m : ManagerProxy)
    (h : (extAfterDispatch env).manager = some m) :
    Ev.setSandboxEngine "io.r5t" ∈ (main env).trace ∧
    Ev.setAppId "sandbox.devenv" ∈ (main env).trace ∧
    (∀ s, Ev.setSandboxEngine s ∈ (main env).trace → s = "io.r5t") ∧
    (∀ s, Ev.setAppId s ∈ (main env).trace → s = "sandbox.devenv") :=
  ⟨ctxTrace_sub env m h _ (by simp [ctxTrace]),
   ctxTrace_sub env m h _ (by simp [ctxTrace]),
   fun s hs => setSandboxEngine_arg env s hs,
   fun s hs => setAppId_arg env s hs⟩

/-- Witness for claim C9 at the concrete run `envC9`. -/
theorem claim_C9_witness :
    (extAfterDispatch envC9).manager = some { id_ := 7, version := 1 } ∧
    (Ev.setSandboxEngine "io.r5t" ∈ (main envC9).trace ∧
     Ev.setAppId "sandbox.devenv" ∈ (main envC9).trace ∧
     (∀ s, Ev.setSandboxEngine s ∈ (main envC9).trace → s = "io.r5t") ∧
     (∀ s, Ev.setAppId s ∈ (main envC9).trace → s = "sandbox.devenv")) :=
  ⟨by decide, claim_C9 envC9 { id_ := 7, version := 1 } (by decide)⟩

/-- Claim C10 (confirmed): in no execution is a `close` ever issued on the
read end of the synchronization pipe — the only descriptor the program
explicitly closes is the listening socket — so the read end stays open until
process exit. -/
theorem claim_C10 (env : Env) :
    Ev.closeFd (read_fd env) ∉ (main env).trace := by
  intro h
  have harg := closeFd_arg env _ h
  simp only [read_fd, listen_fd] at harg
  omega

/-- Witness for claim C10 at the concrete run `envC10`. -/
theorem claim_C10_witness :
    Ev.closeFd (read_fd envC10) ∉ (main envC10).trace :=
  claim_C10 envC10

end Wlsctx
